import Mathlib

/-!
Shallow embedding of `src/zillow_arv_calculator.py` (a single-file ARV
calculator that scrapes a real-estate site, filters comparable sales and
reports the median sold price).

Modelling conventions:
* Python `str` is `String` (scanned as `List Char`).
* Python `int` is `ℤ`, Python `float` is `ℚ` (numeric literals such as
  `0.8`, `0.01` are modelled as exact rationals).
* Code that can raise returns `Except String _`; the `String` is the
  exception message.
* The network (`requests.get`), the HTML parser (`BeautifulSoup`) and the
  UI framework are external libraries: fetched page text, parsed listing
  cards and the memoization clock are passed in as explicit arguments.
* Each `re.search` call of the source uses a fixed pattern; each pattern
  is modelled by a dedicated search function that scans every start
  position (leftmost match, as `re.search` does).  For these particular
  patterns greedy matching is exact except for the `(?:,\d\x7b3\x7d)*`
  repetitions, where the model backtracks over the repetition count.
-/

namespace ArvCalc

/-- Python whitespace class, used for the regex class `\s`, for
`str.split()` and for `str.strip()`. -/
def pyIsSpace (c : Char) : Bool :=
  c = ' ' || c = '\t' || c = '\n' || c = '\r' || c = '\x0b' || c = '\x0c'

/-- Numeric value of a list of decimal digit characters. -/
def digitsVal (l : List Char) : ℕ :=
  l.foldl (fun a c => 10 * a + (c.toNat - 48)) 0

/-- Model of Python `int(s)` on the token shapes occurring in this
program: an optional sign followed by decimal digits; anything else
(in particular a fractional string such as `3.5`) raises `ValueError`.
(Whitespace padding and underscore separators never occur here.) -/
def pyInt (s : String) : Except String ℤ :=
  match s.toList with
  | [] => .error "invalid literal for int"
  | '-' :: rest =>
    if rest ≠ [] ∧ rest.all Char.isDigit then .ok (-(digitsVal rest : ℤ))
    else .error "invalid literal for int"
  | '+' :: rest =>
    if rest ≠ [] ∧ rest.all Char.isDigit then .ok (digitsVal rest)
    else .error "invalid literal for int"
  | l =>
    if l.all Char.isDigit then .ok (digitsVal l)
    else .error "invalid literal for int"

/-- Unsigned part of Python `float(s)`: digits, an optional single dot,
digits; at least one digit overall.  Exponent, `inf` and `nan` forms never
arise from the patterns of this program and are not modelled. -/
def pyFloatCore (l : List Char) : Except String ℚ :=
  let ip := l.takeWhile Char.isDigit
  match l.drop ip.length with
  | [] =>
    if ip.isEmpty then .error "could not convert string to float"
    else .ok (digitsVal ip : ℚ)
  | '.' :: frac =>
    if frac.all Char.isDigit ∧ (ip ≠ [] ∨ frac ≠ []) then
      .ok ((digitsVal ip : ℚ) + (digitsVal frac : ℚ) / (10 : ℚ) ^ frac.length)
    else .error "could not convert string to float"
  | _ => .error "could not convert string to float"

/-- Model of Python `float(s)` (see `pyFloatCore` for the scope). -/
def pyFloat (s : String) : Except String ℚ :=
  match s.toList with
  | '-' :: rest => (pyFloatCore rest).map (fun q => -q)
  | '+' :: rest => pyFloatCore rest
  | l => pyFloatCore l

/-- Model of `s.replace(",", "")`. -/
def dropCommas (s : String) : String :=
  String.mk (s.toList.filter (fun c => c ≠ ','))

/-- Model of `str.strip()` (no arguments: strip whitespace at both ends). -/
def pyStrip (s : String) : String :=
  String.mk (((s.toList.dropWhile pyIsSpace).reverse.dropWhile pyIsSpace).reverse)

/-- Model of `str.split()` (no arguments: split on whitespace runs,
dropping empty tokens). -/
def pyTokens (l : List Char) : List (List Char) :=
  match l with
  | [] => []
  | c :: cs =>
    if pyIsSpace c then pyTokens cs
    else (c :: cs.takeWhile (fun d => !pyIsSpace d)) ::
      pyTokens (cs.dropWhile (fun d => !pyIsSpace d))
termination_by l.length
decreasing_by
  · simp
  · exact Nat.lt_succ_of_le (List.dropWhile_suffix _).length_le

/-- Model of `text.split()[0]`: the first whitespace-separated token, or
an `IndexError` when there is none. -/
def firstToken (s : String) : Except String String :=
  match pyTokens s.toList with
  | [] => .error "list index out of range"
  | t :: _ => .ok (String.mk t)

/-- Substring test on character lists (Python `needle in hay`). -/
def listHasInfix (needle : List Char) : List Char → Bool
  | [] => needle.isEmpty
  | c :: cs => needle.isPrefixOf (c :: cs) || listHasInfix needle cs

/-- Model of Python string containment `needle in hay`. -/
def strContains (hay needle : String) : Bool :=
  listHasInfix needle.toList hay.toList

/-! ### Regex search models

`scanFirst f` applies the single-position matcher `f` at every start
position from the left, as `re.search` does, returning the first match
(`f` returns the text of capture group 1). -/

/-- Leftmost search: try a single-position matcher at every suffix. -/
def scanFirst {α : Type} (f : List Char → Option α) : List Char → Option α
  | [] => f []
  | c :: cs =>
    match f (c :: cs) with
    | some r => some r
    | none => scanFirst f cs

/-- One attempt of the pattern `(\d+(?:\.\d+)?)\s*SUF` at a fixed start
position (used with suffix `bd` and `ba`, src lines 53-54).  Greedy
matching is exact here: no item following a `\d+` or `\s*` can consume a
character those classes would take. -/
def tryNumSuffix (suffix : List Char) (l : List Char) : Option String :=
  let d := l.takeWhile Char.isDigit
  if d.isEmpty then none
  else
    match l.drop d.length with
    | '.' :: t =>
      let e := t.takeWhile Char.isDigit
      if e.isEmpty then
        if suffix.isPrefixOf (('.' :: t).dropWhile pyIsSpace) then some (String.mk d)
        else none
      else
        if suffix.isPrefixOf ((t.drop e.length).dropWhile pyIsSpace) then
          some (String.mk (d ++ '.' :: e))
        else none
    | r1 =>
      if suffix.isPrefixOf (r1.dropWhile pyIsSpace) then some (String.mk d) else none

/-- Maximal run of `,ddd` repetitions (the regex piece `(?:,\d\x7b3\x7d)*`),
each returned with its comma. -/
def commaGroups : List Char → List (List Char)
  | ',' :: a :: b :: c :: rest =>
    if a.isDigit && b.isDigit && c.isDigit then [',', a, b, c] :: commaGroups rest
    else []
  | _ => []

def sqftLit : List Char := "sqft".toList

/-- Backtracking over the repetition count for
`(\d+(?:,\d\x7b3\x7d)*)\s*sqft`: try `k` comma groups, largest first. -/
def tryGroupCount (d afterDigits : List Char) (gs : List (List Char)) : ℕ → Option String
  | 0 =>
    if sqftLit.isPrefixOf (afterDigits.dropWhile pyIsSpace) then some (String.mk d)
    else none
  | k + 1 =>
    if sqftLit.isPrefixOf ((afterDigits.drop (4 * (k + 1))).dropWhile pyIsSpace) then
      some (String.mk (d ++ (gs.take (k + 1)).flatten))
    else tryGroupCount d afterDigits gs k

/-- One attempt of `(\d+(?:,\d\x7b3\x7d)*)\s*sqft` (src line 55). -/
def trySqftTarget (l : List Char) : Option String :=
  let d := l.takeWhile Char.isDigit
  if d.isEmpty then none
  else
    let after := l.drop d.length
    let gs := commaGroups after
    tryGroupCount d after gs gs.length

def lotLit : List Char := "lot:".toList

/-- One attempt of `lot:\s*(\d+(?:,\d\x7b3\x7d)*)` (src line 56); the group
is last, so greedy maximal matching is exact. -/
def tryLot (l : List Char) : Option String :=
  if lotLit.isPrefixOf l then
    let r := (l.drop 4).dropWhile pyIsSpace
    let d := r.takeWhile Char.isDigit
    if d.isEmpty then none
    else some (String.mk (d ++ (commaGroups (r.drop d.length)).flatten))
  else none

def builtLit : List Char := "built".toList

/-- One attempt of `built\s*(\d\x7b4\x7d)` (src line 57). -/
def tryBuilt (l : List Char) : Option String :=
  if builtLit.isPrefixOf l then
    match (l.drop 5).dropWhile pyIsSpace with
    | a :: b :: c :: d :: _ =>
      if a.isDigit && b.isDigit && c.isDigit && d.isDigit then
        some (String.mk [a, b, c, d])
      else none
    | _ => none
  else none

/-- One attempt of `KEY\s*([\d.-]+)` where `KEY` is a literal such as
`"latitude":` (src lines 59-60). -/
def tryKeyNum (key : List Char) (l : List Char) : Option String :=
  if key.isPrefixOf l then
    let g := ((l.drop key.length).dropWhile pyIsSpace).takeWhile
      (fun c => c.isDigit || c = '.' || c = '-')
    if g.isEmpty then none else some (String.mk g)
  else none

/-- One attempt of `(\d+) sqft` (src line 100; note the literal space). -/
def tryCompSqft (l : List Char) : Option String :=
  let d := l.takeWhile Char.isDigit
  if d.isEmpty then none
  else if (' ' :: sqftLit).isPrefixOf (l.drop d.length) then some (String.mk d)
  else none

def soldLit : List Char := "Sold:".toList

/-- One attempt of `Sold:\s*\$([\d,]+)` (src line 101). -/
def trySoldPrice (l : List Char) : Option String :=
  if soldLit.isPrefixOf l then
    match (l.drop 5).dropWhile pyIsSpace with
    | '$' :: r =>
      let g := r.takeWhile (fun c => c.isDigit || c = ',')
      if g.isEmpty then none else some (String.mk g)
    | _ => none
  else none

/-- `re.search` of the bedrooms pattern (src line 53), returning group 1. -/
def searchBd (html : String) : Option String :=
  scanFirst (tryNumSuffix "bd".toList) html.toList

/-- `re.search` of the bathrooms pattern (src line 54), returning group 1. -/
def searchBa (html : String) : Option String :=
  scanFirst (tryNumSuffix "ba".toList) html.toList

/-- `re.search` of the square-footage pattern (src line 55), group 1. -/
def searchSqftTarget (html : String) : Option String :=
  scanFirst trySqftTarget html.toList

/-- `re.search` of the lot-size pattern (src line 56), group 1. -/
def searchLot (html : String) : Option String :=
  scanFirst tryLot html.toList

/-- `re.search` of the year-built pattern (src line 57), group 1. -/
def searchBuilt (html : String) : Option String :=
  scanFirst tryBuilt html.toList

/-- `re.search` of the latitude pattern (src line 59), group 1. -/
def searchLatitude (html : String) : Option String :=
  scanFirst (tryKeyNum "\"latitude\":".toList) html.toList

/-- `re.search` of the longitude pattern (src line 60), group 1. -/
def searchLongitude (html : String) : Option String :=
  scanFirst (tryKeyNum "\"longitude\":".toList) html.toList

/-- `re.search` of the comp square-footage pattern (src line 100), group 1. -/
def searchCompSqft (text : String) : Option String :=
  scanFirst tryCompSqft text.toList

/-- `re.search` of the sold-price pattern (src line 101), group 1. -/
def searchSoldPrice (text : String) : Option String :=
  scanFirst trySoldPrice text.toList

/-! ### Page fetcher (src lines 30-39) -/

/-- Model of `fetch_zillow_page`: the HTTP response is abstracted as its
status code and body text.  The function returns the body exactly on
status 200 and the empty string otherwise (the user-agent choice, the
fixed delay and the `st.error` call do not affect the returned value). -/
def fetch_zillow_page (status : ℕ) (body : String) : String :=
  if status = 200 then body else ""

/-- Written from the words of the spec, for comparison with
`fetch_zillow_page`: an HTTP status is a success status when it lies in
the 2xx class. -/
def specHttpSuccess (status : ℕ) : Bool :=
  200 ≤ status && status < 300

/-! ### Target property extractor (src lines 41-76) -/

/-- The dictionary built at src lines 67-76. -/
structure PropRecord where
  address : String
  beds : ℤ
  baths : ℤ
  sq_ft : ℤ
  lot_size : ℤ
  year_built : ℤ
  latitude : Option ℚ
  longitude : Option ℚ
deriving Repr, DecidableEq

/-- `int(m.group(1)) if m else 0` for an optional regex match. -/
def parseIntField (og : Option String) : Except String ℤ :=
  match og with
  | none => .ok 0
  | some g => pyInt g

/-- `int(m.group(1).replace(",", "")) if m else 0`. -/
def parseIntFieldComma (og : Option String) : Except String ℤ :=
  match og with
  | none => .ok 0
  | some g => pyInt (dropCommas g)

/-- `float(m.group(1)) if m else None` (src lines 61-62). -/
def parseOptFloat (og : Option String) : Except String (Option ℚ) :=
  match og with
  | none => .ok none
  | some g => (pyFloat g).map some

/-- Model of `get_property_details` (src lines 41-76) as a function of the
address and of the page text returned by `fetch_zillow_page` for the
details URL.  Python `return \x7b\x7d` for empty page text is `Option.none`;
a `ValueError` escaping from one of the `int`/`float` conversions is
`Except.error`.  The field conversions run in source order, so the first
failing conversion is the exception that propagates. -/
def get_property_details (address : String) (html : String) :
    Except String (Option PropRecord) :=
  if html = "" then .ok none
  else
    match parseIntField (searchBd html) with
    | .error e => .error e
    | .ok beds =>
      match parseIntField (searchBa html) with
      | .error e => .error e
      | .ok baths =>
        match parseIntFieldComma (searchSqftTarget html) with
        | .error e => .error e
        | .ok sq_ft =>
          match parseIntFieldComma (searchLot html) with
          | .error e => .error e
          | .ok lot_size =>
            match parseIntField (searchBuilt html) with
            | .error e => .error e
            | .ok year_built =>
              match parseOptFloat (searchLatitude html) with
              | .error e => .error e
              | .ok latitude =>
                match parseOptFloat (searchLongitude html) with
                | .error e => .error e
                | .ok longitude =>
                  .ok (some { address := address, beds := beds, baths := baths,
                              sq_ft := sq_ft, lot_size := lot_size,
                              year_built := year_built,
                              latitude := latitude, longitude := longitude })

/-! ### Comp search and extractor (src lines 78-116) -/

/-- One listing card as delivered by BeautifulSoup (src lines 94-102):
the text of the `address` tag, of the bed/bath/sold-date spans (when the
tag is found), and the whole card text searched by the two regexes. -/
structure Card where
  addressText : Option String
  bedsText : Option String
  bathsText : Option String
  soldDateText : Option String
  cardText : String
deriving Repr, DecidableEq

/-- One appended comp dictionary (src lines 107-114). -/
structure CompRow where
  address : String
  beds : ℤ
  baths : ℚ
  sq_ft : ℤ
  sold_date : String
  sold_price : ℤ
deriving Repr, DecidableEq

/-- `int(tag.text.split()[0]) if tag else 0` (src line 98). -/
def parseSpanInt (ot : Option String) : Except String ℤ :=
  match ot with
  | none => .ok 0
  | some t =>
    match firstToken t with
    | .error e => .error e
    | .ok tok => pyInt tok

/-- `float(tag.text.split()[0]) if tag else 0` (src line 99). -/
def parseSpanFloat (ot : Option String) : Except String ℚ :=
  match ot with
  | none => .ok 0
  | some t =>
    match firstToken t with
    | .error e => .error e
    | .ok tok => pyFloat tok

/-- Field extraction for one card (src lines 95-102), in source
evaluation order. -/
def extractCard (c : Card) : Except String CompRow :=
  match parseSpanInt c.bedsText with
  | .error e => .error e
  | .ok beds_comp =>
    match parseSpanFloat c.bathsText with
    | .error e => .error e
    | .ok baths_comp =>
      match parseIntFieldComma (searchCompSqft c.cardText) with
      | .error e => .error e
      | .ok sq_ft_comp =>
        match parseIntFieldComma (searchSoldPrice c.cardText) with
        | .error e => .error e
        | .ok sold_price =>
          .ok { address := (match c.addressText with | some t => pyStrip t | none => ""),
                beds := beds_comp, baths := baths_comp, sq_ft := sq_ft_comp,
                sold_date := c.soldDateText.getD "", sold_price := sold_price }

/-- The similarity filter of src lines 105-106:
`abs(beds_comp - beds) <= 1 and abs(baths_comp - baths) <= 1 and
0.8 * sq_ft <= sq_ft_comp <= 1.2 * sq_ft and sold_date and
"2025" in sold_date`. -/
def keepComp (beds baths sq_ft : ℤ) (v : CompRow) : Bool :=
  decide (|v.beds - beds| ≤ 1) &&
  decide (|v.baths - (baths : ℚ)| ≤ 1) &&
  decide ((8 / 10 : ℚ) * sq_ft ≤ v.sq_ft) &&
  decide ((v.sq_ft : ℚ) ≤ (12 / 10 : ℚ) * sq_ft) &&
  decide (v.sold_date ≠ "") &&
  strContains v.sold_date "2025"

/-- The card loop of src lines 94-114: extract every card in page order,
keep the rows passing `keepComp`.  An exception inside an extraction
aborts the whole loop, as in Python. -/
def get_comps_rows (beds baths sq_ft : ℤ) : List Card → Except String (List CompRow)
  | [] => .ok []
  | c :: cs =>
    match extractCard c with
    | .error e => .error e
    | .ok v =>
      match get_comps_rows beds baths sq_ft cs with
      | .error e => .error e
      | .ok rest => .ok (if keepComp beds baths sq_ft v then v :: rest else rest)

/-- Model of `get_comps` (src lines 78-116) as a function of the fetched
search-page text and of the soup (the card list BeautifulSoup finds in a
given page text).  Empty page text returns the empty DataFrame before any
parsing.  The parameters `lat`, `lon`, `lot_size`, `year_built` only feed
the search URL (see `get_comps_format_args`), not the row processing. -/
def get_comps (lat lon : ℚ) (beds baths sq_ft lot_size year_built : ℤ)
    (html : String) (soup : String → List Card) : Except String (List CompRow) :=
  if html = "" then .ok []
  else get_comps_rows beds baths sq_ft (soup html)

/-! ### The search URL of `get_comps` (src lines 82-85)

The URL is built with `str.format`.  The format string contains the
placeholders `\x7b0\x7d` … `\x7b9\x7d`, in this textual order and position:

* `"bd":\x7b"value":"\x7b0\x7d"\x7d` — bedrooms filter,
* `"ba":…\x7b1\x7d…` — bathrooms filter,
* `"sqft":…\x7b2\x7d…` — square-footage filter,
* `"lot":…\x7b3\x7d…` — lot-size filter,
* `"yb":…\x7b4\x7d…` — year-built filter,
* `"mapBounds":\x7b"west":\x7b5\x7d,"east":\x7b6\x7d,"south":\x7b7\x7d,"north":\x7b8\x7d\x7d`,
* `"usersSearchTerm":"\x7b9\x7d"`.

Eleven positional arguments are supplied (src lines 83-84); `str.format`
substitutes argument `k` for placeholder `\x7bk\x7d` and ignores extra
arguments. -/

/-- A value passed to `str.format`: a Python int, float, string, or the
pre-formatted `"lo-hi"` range f-string. -/
inductive FmtArg where
  | intV (n : ℤ)
  | ratV (q : ℚ)
  | strV (s : String)
  | rangeV (lo hi : ℚ)
deriving Repr, DecidableEq

/-- The argument tuple of the `.format(...)` call (src lines 83-84), in
source order.  `address` is the module-level Streamlit text input (src
line 128) referenced from inside `get_comps`. -/
def get_comps_format_args (lat lon : ℚ) (beds baths sq_ft lot_size year_built : ℤ)
    (address : String) : List FmtArg :=
  [ .intV beds,
    .intV baths,
    .rangeV ((8 / 10 : ℚ) * sq_ft) ((12 / 10 : ℚ) * sq_ft),
    .rangeV ((8 / 10 : ℚ) * lot_size) ((12 / 10 : ℚ) * lot_size),
    .intV (year_built - 10),
    .intV (year_built + 10),
    .ratV (lon - 1 / 100),
    .ratV (lon + 1 / 100),
    .ratV (lat - 1 / 100),
    .ratV (lat + 1 / 100),
    .strV address ]

/-- Placeholder index of each query slot, read off the format string. -/
def bdSlotIdx : ℕ := 0
def baSlotIdx : ℕ := 1
def sqftSlotIdx : ℕ := 2
def lotSlotIdx : ℕ := 3
def ybSlotIdx : ℕ := 4
def westSlotIdx : ℕ := 5
def eastSlotIdx : ℕ := 6
def southSlotIdx : ℕ := 7
def northSlotIdx : ℕ := 8
def usersSearchTermSlotIdx : ℕ := 9

/-- The value `str.format` substitutes for placeholder `i`. -/
def slotValue (args : List FmtArg) (i : ℕ) : FmtArg :=
  args.getD i (.strV "")

/-! ### ARV estimator (src lines 118-122) -/

/-- Median of a sorted-by-`insertionSort` list, as `pandas.Series.median`
computes it on integer data: middle element for odd length, arithmetic
mean of the two middle elements for even length.  (`calculate_arv` never
calls it on an empty list.) -/
def pdMedian (l : List ℚ) : ℚ :=
  let s := l.insertionSort (· ≤ ·)
  if s.length % 2 = 1 then s.getD (s.length / 2) 0
  else (s.getD (s.length / 2 - 1) 0 + s.getD (s.length / 2) 0) / 2

/-- Model of `calculate_arv` (src lines 118-122).  A comps DataFrame built
by `get_comps` has a `"Sold Price"` column exactly when it is non-empty,
so the guard `not comps_df.empty and "Sold Price" in comps_df.columns`
reduces to non-emptiness of the row list. -/
def calculate_arv (rows : List CompRow) : ℚ :=
  if rows.isEmpty then 0
  else pdMedian (rows.map (fun r => (r.sold_price : ℚ)))

/-- Written from the words of the claim, for comparison with
`calculate_arv`: the median of the sold prices over only the entries
whose sold price is defined (non-zero, since 0 records "not found"),
and 0 when no entry has a defined sold price. -/
def claim_arv_defined_only (rows : List CompRow) : ℚ :=
  let ps := (rows.map (fun r => (r.sold_price : ℚ))).filter (fun p => p ≠ 0)
  if ps.isEmpty then 0 else pdMedian ps

/-! ### Memoization (src lines 18, 41, 78)

`@st.cache_data(ttl=3600)` is the Streamlit library, not code of this
repository. -/

/-- Modelled from the spec: the missing `st.cache_data` implementation.
Per §5 of the spec, each decorated call "is memoized for a fixed time
window keyed by its exact arguments … repeat invocations with identical
arguments within that window return the previously computed result
instead of re-fetching", with no eviction beyond time expiry and no size
bound.  An entry stored at time `t` is live at time `now` when
`now < t + ttl`. -/
structure TtlCache (α β : Type) where
  entries : List (α × β × ℕ)

/-- Look up a live cache entry. -/
def cacheFind {α β : Type} [DecidableEq α] (ttl now : ℕ) (k : α)
    (st : TtlCache α β) : Option β :=
  (st.entries.find? (fun e => decide (e.1 = k) && decide (now < e.2.2 + ttl))).map
    (fun e => e.2.1)

/-- Modelled from the spec: one invocation of a `st.cache_data(ttl=…)`
function.  Returns the value, the new cache state, and whether the
underlying (network-fetching) function was actually invoked. -/
def cachedCall {α β : Type} [DecidableEq α] (ttl : ℕ) (f : α → β) (k : α)
    (now : ℕ) (st : TtlCache α β) : β × TtlCache α β × Bool :=
  match cacheFind ttl now k st with
  | some v => (v, st, false)
  | none => (f k, ⟨(k, f k, now) :: st.entries⟩, true)

/-- The memoized target-property lookup: `get_property_details` under its
`@st.cache_data(ttl=3600)` decorator, against a stubbed fetcher
`fetchHtml` (the page text the network would return for an address). -/
def target_lookup_cached (fetchHtml : String → String) (addr : String) (now : ℕ)
    (st : TtlCache String (Except String (Option PropRecord))) :
    Except String (Option PropRecord) ×
      TtlCache String (Except String (Option PropRecord)) × Bool :=
  cachedCall 3600 (fun a => get_property_details a (fetchHtml a)) addr now st

/-! ### Main UI block (src lines 130-135) -/

/-- Python truthiness of the geocoder outputs: `None` and `0.0` are falsy,
every other float is truthy. -/
def pyTruthyFloat (x : Option ℚ) : Bool :=
  match x with
  | none => false
  | some q => decide (q ≠ 0)

/-- Src line 133: `if not lat or not lon:` aborts via `st.stop()`; the
pipeline proceeds to the scraping calls exactly when this is `true`. -/
def main_proceeds (lat lon : Option ℚ) : Bool :=
  pyTruthyFloat lat && pyTruthyFloat lon

/-! ### Concrete inputs used in example and counterexample theorems -/

/-- A comp row whose only distinguishing field is the sold price. -/
def rowP (p : ℤ) : CompRow :=
  { address := "", beds := 0, baths := 0, sq_ft := 0, sold_date := "", sold_price := p }

/-- A listing card whose bedroom span reads `-1`. -/
def negBedsCard : Card :=
  { addressText := none, bedsText := some "-1", bathsText := some "0",
    soldDateText := some "Sold 2025", cardText := "" }

/-- The row `negBedsCard` extracts to. -/
def negBedsRow : CompRow :=
  { address := "", beds := -1, baths := 0, sq_ft := 0,
    sold_date := "Sold 2025", sold_price := 0 }

/-- An ordinary listing card similar to a 3 bed / 2 bath / 1000 sqft
target. -/
def exCard : Card :=
  { addressText := some "A", bedsText := some "3", bathsText := some "2.5",
    soldDateText := some "Sold 03/2025", cardText := "x 1100 sqft Sold: $250,000" }

/-- The row `exCard` extracts to. -/
def exRow : CompRow :=
  { address := "A", beds := 3, baths := 5 / 2, sq_ft := 1100,
    sold_date := "Sold 03/2025", sold_price := 250000 }

/-! ## Helper lemmas -/

theorem toList_mk (l : List Char) : (String.mk l).toList = l := rfl

theorem scanFirst_some {α : Type} {f : List Char → Option α} {a : α} :
    ∀ {l : List Char}, scanFirst f l = some a → ∃ l2, f l2 = some a := by
  intro l
  induction l with
  | nil => intro h; exact ⟨[], h⟩
  | cons c cs ih =>
    intro h
    unfold scanFirst at h
    split at h
    · rename_i r hr
      exact ⟨c :: cs, hr.trans (congrArg some (Option.some.inj h))⟩
    · exact ih h

theorem commaGroups_chars :
    ∀ {l : List Char} {ch : Char}, ch ∈ (commaGroups l).flatten →
      ch.isDigit ∨ ch = ',' := by
  intro l
  induction l using commaGroups.induct with
  | case1 a b c rest hd ih =>
    intro ch hch
    simp only [commaGroups, if_pos hd, List.flatten_cons, List.mem_append] at hch
    simp only [Bool.and_eq_true] at hd
    rcases hch with hch | hch
    · simp only [List.mem_cons, List.not_mem_nil, or_false] at hch
      rcases hch with rfl | rfl | rfl | rfl
      · exact Or.inr rfl
      · exact Or.inl hd.1.1
      · exact Or.inl hd.1.2
      · exact Or.inl hd.2
    · exact ih hch
  | case2 a b c rest hd =>
    intro ch hch
    simp only [commaGroups, if_neg hd] at hch
    simp at hch
  | case3 l hna =>
    intro ch hch
    have ht : commaGroups l = [] := by
      rw [commaGroups.eq_def]
      split
      · exact (hna _ _ _ _ rfl).elim
      · rfl
    rw [ht] at hch
    simp at hch

theorem mem_of_mem_take_flatten {α : Type} {gs : List (List α)} {k : ℕ} {ch : α}
    (h : ch ∈ (gs.take k).flatten) : ch ∈ gs.flatten := by
  rw [List.mem_flatten] at h ⊢
  obtain ⟨g, hg, hchg⟩ := h
  exact ⟨g, List.take_subset _ _ hg, hchg⟩

theorem tryNumSuffix_chars {suf l : List Char} {g : String}
    (h : tryNumSuffix suf l = some g) :
    ∀ ch ∈ g.toList, ch.isDigit ∨ ch = '.' := by
  simp only [tryNumSuffix] at h
  split at h
  · exact absurd h (by simp)
  · split at h
    · split at h
      · split at h
        · intro ch hch
          have hg : g = String.mk _ := (Option.some.inj h).symm
          subst hg
          rw [toList_mk] at hch
          exact Or.inl (List.mem_takeWhile_imp hch)
        · exact absurd h (by simp)
      · split at h
        · intro ch hch
          have hg : g = String.mk _ := (Option.some.inj h).symm
          subst hg
          rw [toList_mk] at hch
          rcases List.mem_append.mp hch with hd | hdot
          · exact Or.inl (List.mem_takeWhile_imp hd)
          · rcases List.mem_cons.mp hdot with rfl | he
            · exact Or.inr rfl
            · exact Or.inl (List.mem_takeWhile_imp he)
        · exact absurd h (by simp)
    · split at h
      · intro ch hch
        have hg : g = String.mk _ := (Option.some.inj h).symm
        subst hg
        rw [toList_mk] at hch
        exact Or.inl (List.mem_takeWhile_imp hch)
      · exact absurd h (by simp)

theorem tryGroupCount_chars {d after : List Char} {gs : List (List Char)} {g : String}
    (hd : ∀ ch ∈ d, ch.isDigit)
    (hgs : ∀ ch ∈ gs.flatten, ch.isDigit ∨ ch = ',') :
    ∀ {k : ℕ}, tryGroupCount d after gs k = some g →
      ∀ ch ∈ g.toList, ch.isDigit ∨ ch = ',' := by
  intro k
  induction k with
  | zero =>
    intro h ch hch
    unfold tryGroupCount at h
    split at h
    · have : g = String.mk d := (Option.some.inj h).symm
      subst this
      rw [toList_mk] at hch
      exact Or.inl (hd ch hch)
    · exact absurd h (by simp)
  | succ k ih =>
    intro h ch hch
    unfold tryGroupCount at h
    split at h
    · have : g = String.mk (d ++ (gs.take (k + 1)).flatten) := (Option.some.inj h).symm
      subst this
      rw [toList_mk] at hch
      rcases List.mem_append.mp hch with hch | hch
      · exact Or.inl (hd ch hch)
      · exact hgs ch (mem_of_mem_take_flatten hch)
    · exact ih h ch hch

theorem trySqftTarget_chars {l : List Char} {g : String}
    (h : trySqftTarget l = some g) :
    ∀ ch ∈ g.toList, ch.isDigit ∨ ch = ',' := by
  simp only [trySqftTarget] at h
  split at h
  · exact absurd h (by simp)
  · exact tryGroupCount_chars (fun ch hch => List.mem_takeWhile_imp hch)
      (fun ch hch => commaGroups_chars hch) h

theorem tryLot_chars {l : List Char} {g : String}
    (h : tryLot l = some g) :
    ∀ ch ∈ g.toList, ch.isDigit ∨ ch = ',' := by
  simp only [tryLot] at h
  split at h
  · split at h
    · exact absurd h (by simp)
    · intro ch hch
      have : g = String.mk _ := (Option.some.inj h).symm
      subst this
      rw [toList_mk] at hch
      rcases List.mem_append.mp hch with hch | hch
      · exact Or.inl (List.mem_takeWhile_imp hch)
      · exact commaGroups_chars hch
  · exact absurd h (by simp)

theorem tryBuilt_chars {l : List Char} {g : String}
    (h : tryBuilt l = some g) :
    ∀ ch ∈ g.toList, ch.isDigit := by
  simp only [tryBuilt] at h
  split at h
  · split at h
    · split at h
      · rename_i a b c d rest heq habcd
        intro ch hch
        have : g = String.mk [a, b, c, d] := (Option.some.inj h).symm
        subst this
        rw [toList_mk] at hch
        simp only [Bool.and_eq_true] at habcd
        rcases List.mem_cons.mp hch with rfl | hch
        · exact habcd.1.1.1
        rcases List.mem_cons.mp hch with rfl | hch
        · exact habcd.1.1.2
        rcases List.mem_cons.mp hch with rfl | hch
        · exact habcd.1.2
        rcases List.mem_cons.mp hch with rfl | hch
        · exact habcd.2
        · simp at hch
      · exact absurd h (by simp)
    · exact absurd h (by simp)
  · exact absurd h (by simp)

theorem tryCompSqft_chars {l : List Char} {g : String}
    (h : tryCompSqft l = some g) :
    ∀ ch ∈ g.toList, ch.isDigit := by
  simp only [tryCompSqft] at h
  split at h
  · exact absurd h (by simp)
  · split at h
    · intro ch hch
      have : g = String.mk _ := (Option.some.inj h).symm
      subst this
      rw [toList_mk] at hch
      exact List.mem_takeWhile_imp hch
    · exact absurd h (by simp)

theorem trySoldPrice_chars {l : List Char} {g : String}
    (h : trySoldPrice l = some g) :
    ∀ ch ∈ g.toList, ch.isDigit ∨ ch = ',' := by
  simp only [trySoldPrice] at h
  split at h
  · split at h
    · split at h
      · exact absurd h (by simp)
      · intro ch hch
        have : g = String.mk _ := (Option.some.inj h).symm
        subst this
        rw [toList_mk] at hch
        have := List.mem_takeWhile_imp hch
        simpa using this
    · exact absurd h (by simp)
  · exact absurd h (by simp)

/-- A character satisfying `isDigit` is not the minus sign. -/
theorem isDigit_ne_dash {c : Char} (h : c.isDigit) : c ≠ '-' := by
  intro he
  subst he
  simp [Char.isDigit] at h

/-- `int(s)` succeeds with a negative value only when `s` starts with a
minus sign. -/
theorem pyInt_nonneg {s : String} {n : ℤ}
    (hch : ∀ ch ∈ s.toList, ch ≠ '-') (h : pyInt s = .ok n) : 0 ≤ n := by
  unfold pyInt at h
  split at h
  · exact absurd h (by simp)
  · rename_i rest heq
    exact absurd rfl (hch '-' (heq ▸ List.mem_cons_self _ _))
  · split at h
    · have : ((digitsVal _ : ℤ)) = n := Except.ok.inj h
      omega
    · exact absurd h (by simp)
  · split at h
    · have : ((digitsVal _ : ℤ)) = n := Except.ok.inj h
      omega
    · exact absurd h (by simp)

theorem parseIntField_nonneg {og : Option String} {n : ℤ}
    (hch : ∀ g, og = some g → ∀ ch ∈ g.toList, ch ≠ '-')
    (h : parseIntField og = .ok n) : 0 ≤ n := by
  cases og with
  | none =>
    have : (0 : ℤ) = n := Except.ok.inj h
    omega
  | some g => exact pyInt_nonneg (hch g rfl) h

theorem parseIntFieldComma_nonneg {og : Option String} {n : ℤ}
    (hch : ∀ g, og = some g → ∀ ch ∈ g.toList, ch ≠ '-')
    (h : parseIntFieldComma og = .ok n) : 0 ≤ n := by
  cases og with
  | none =>
    have : (0 : ℤ) = n := Except.ok.inj h
    omega
  | some g =>
    refine pyInt_nonneg (fun ch hchm => ?_) h
    have : ch ∈ g.toList := by
      have := hchm
      unfold dropCommas at this
      rw [toList_mk] at this
      exact List.mem_of_mem_filter this
    exact hch g rfl ch this

/-- Inversion of a successful `get_property_details` run: every field of
the returned record is the result of its own parse. -/
theorem get_property_details_ok_some {addr html : String} {r : PropRecord}
    (h : get_property_details addr html = .ok (some r)) :
    parseIntField (searchBd html) = .ok r.beds ∧
    parseIntField (searchBa html) = .ok r.baths ∧
    parseIntFieldComma (searchSqftTarget html) = .ok r.sq_ft ∧
    parseIntFieldComma (searchLot html) = .ok r.lot_size ∧
    parseIntField (searchBuilt html) = .ok r.year_built ∧
    parseOptFloat (searchLatitude html) = .ok r.latitude ∧
    parseOptFloat (searchLongitude html) = .ok r.longitude ∧
    r.address = addr := by
  unfold get_property_details at h
  split at h
  · simp at h
  · split at h
    · simp at h
    · rename_i beds hbeds
      split at h
      · simp at h
      · rename_i baths hbaths
        split at h
        · simp at h
        · rename_i sq_ft hsq
          split at h
          · simp at h
          · rename_i lot_size hlot
            split at h
            · simp at h
            · rename_i year_built hyb
              split at h
              · simp at h
              · rename_i latitude hlat
                split at h
                · simp at h
                · rename_i longitude hlon
                  simp only [Except.ok.injEq, Option.some.injEq] at h
                  subst h
                  exact ⟨hbeds, hbaths, hsq, hlot, hyb, hlat, hlon, rfl⟩

/-- Inversion of a successful `extractCard` run. -/
theorem extractCard_ok {c : Card} {v : CompRow} (h : extractCard c = .ok v) :
    parseSpanInt c.bedsText = .ok v.beds ∧
    parseSpanFloat c.bathsText = .ok v.baths ∧
    parseIntFieldComma (searchCompSqft c.cardText) = .ok v.sq_ft ∧
    parseIntFieldComma (searchSoldPrice c.cardText) = .ok v.sold_price ∧
    v.address = (match c.addressText with | some t => pyStrip t | none => "") ∧
    v.sold_date = c.soldDateText.getD "" := by
  unfold extractCard at h
  split at h
  · simp at h
  · rename_i beds hbeds
    split at h
    · simp at h
    · rename_i baths hbaths
      split at h
      · simp at h
      · rename_i sq_ft hsq
        split at h
        · simp at h
        · rename_i sold_price hsp
          simp only [Except.ok.injEq] at h
          subst h
          exact ⟨hbeds, hbaths, hsq, hsp, rfl, rfl⟩

/-- The Boolean similarity filter unfolded into its propositional
conjuncts. -/
theorem keepComp_eq_true_iff (beds baths sq_ft : ℤ) (v : CompRow) :
    keepComp beds baths sq_ft v = true ↔
      (|v.beds - beds| ≤ 1 ∧ |v.baths - (baths : ℚ)| ≤ 1 ∧
       (8 / 10 : ℚ) * sq_ft ≤ v.sq_ft ∧ (v.sq_ft : ℚ) ≤ (12 / 10 : ℚ) * sq_ft ∧
       v.sold_date ≠ "" ∧ strContains v.sold_date "2025" = true) := by
  simp only [keepComp, Bool.and_eq_true, decide_eq_true_eq, and_assoc]

/-! ## Claim theorems -/

/-- Claim C1 (code bug): at the concrete target lat=40, lon=-75, beds=3,
baths=2, sq_ft=1000, lot_size=5000, year_built=2000, address "A", the
square-footage and lot-size slots of the search URL do receive the
±20 percent ranges, but — because eleven format arguments are supplied
for the ten placeholders — the year-built slot receives only
year_built−10, the west map-bound slot receives year_built+10, east
receives lon−0.01, south receives lon+0.01, north receives lat−0.01, the
usersSearchTerm slot receives lat+0.01, and the address goes unused; the
west slot does not hold lon−0.01 as the claim states. -/
theorem get_comps_url_slot_shift :
    slotValue (get_comps_format_args 40 (-75) 3 2 1000 5000 2000 "A") sqftSlotIdx =
      .rangeV 800 1200 ∧
    slotValue (get_comps_format_args 40 (-75) 3 2 1000 5000 2000 "A") lotSlotIdx =
      .rangeV 4000 6000 ∧
    slotValue (get_comps_format_args 40 (-75) 3 2 1000 5000 2000 "A") ybSlotIdx =
      .intV 1990 ∧
    slotValue (get_comps_format_args 40 (-75) 3 2 1000 5000 2000 "A") westSlotIdx =
      .intV 2010 ∧
    slotValue (get_comps_format_args 40 (-75) 3 2 1000 5000 2000 "A") eastSlotIdx =
      .ratV (-75 - 1 / 100) ∧
    slotValue (get_comps_format_args 40 (-75) 3 2 1000 5000 2000 "A") southSlotIdx =
      .ratV (-75 + 1 / 100) ∧
    slotValue (get_comps_format_args 40 (-75) 3 2 1000 5000 2000 "A") northSlotIdx =
      .ratV (40 - 1 / 100) ∧
    slotValue (get_comps_format_args 40 (-75) 3 2 1000 5000 2000 "A")
      usersSearchTermSlotIdx = .ratV (40 + 1 / 100) ∧
    slotValue (get_comps_format_args 40 (-75) 3 2 1000 5000 2000 "A") westSlotIdx ≠
      .ratV (-75 - 1 / 100) := by
  have hwest : slotValue (get_comps_format_args 40 (-75) 3 2 1000 5000 2000 "A")
      westSlotIdx = .intV 2010 := by with_unfolding_all rfl
  refine ⟨by with_unfolding_all rfl, by with_unfolding_all rfl, by with_unfolding_all rfl,
    hwest, by with_unfolding_all rfl, by with_unfolding_all rfl, by with_unfolding_all rfl,
    by with_unfolding_all rfl, ?_⟩
  rw [hwest]
  intro hc
  exact FmtArg.noConfusion hc

/-- Claim C2 (confirmed): when the card loop of get_comps succeeds, a row
is in its output exactly when some card extracts to it and it passes the
similarity conditions — bedroom count within 1 of the target, bathroom
count within 1, square footage within [0.8×, 1.2×] of the target, and a
non-empty sold-date text containing the literal year token 2025. -/
theorem comp_filter_keeps_entry_iff (beds baths sq_ft : ℤ) (cards : List Card)
    (out : List CompRow) (h : get_comps_rows beds baths sq_ft cards = .ok out)
    (v : CompRow) :
    v ∈ out ↔ ((∃ c ∈ cards, extractCard c = .ok v) ∧
      |v.beds - beds| ≤ 1 ∧ |v.baths - (baths : ℚ)| ≤ 1 ∧
      (8 / 10 : ℚ) * sq_ft ≤ v.sq_ft ∧ (v.sq_ft : ℚ) ≤ (12 / 10 : ℚ) * sq_ft ∧
      v.sold_date ≠ "" ∧ strContains v.sold_date "2025" = true) := by
  induction cards generalizing out with
  | nil =>
    simp only [get_comps_rows, Except.ok.injEq] at h
    subst h
    simp
  | cons c cs ih =>
    unfold get_comps_rows at h
    split at h
    · simp at h
    · rename_i v1 hv1
      split at h
      · simp at h
      · rename_i rest hrest
        simp only [Except.ok.injEq] at h
        subst h
        by_cases hk : keepComp beds baths sq_ft v1 = true
        · rw [if_pos hk]
          constructor
          · intro hv
            rcases List.mem_cons.mp hv with rfl | hv2
            · exact ⟨⟨c, List.mem_cons_self c cs, hv1⟩,
                (keepComp_eq_true_iff beds baths sq_ft v).mp hk⟩
            · obtain ⟨⟨c2, hc2, he2⟩, conds⟩ := (ih rest hrest).mp hv2
              exact ⟨⟨c2, List.mem_cons_of_mem c hc2, he2⟩, conds⟩
          · rintro ⟨⟨c2, hc2, he2⟩, conds⟩
            rcases List.mem_cons.mp hc2 with rfl | hc2t
            · have hvv : v1 = v := Except.ok.inj (hv1.symm.trans he2)
              subst hvv
              exact List.mem_cons_self v1 rest
            · exact List.mem_cons_of_mem v1 ((ih rest hrest).mpr ⟨⟨c2, hc2t, he2⟩, conds⟩)
        · rw [if_neg hk]
          constructor
          · intro hv
            obtain ⟨⟨c2, hc2, he2⟩, conds⟩ := (ih rest hrest).mp hv
            exact ⟨⟨c2, List.mem_cons_of_mem c hc2, he2⟩, conds⟩
          · rintro ⟨⟨c2, hc2, he2⟩, conds⟩
            rcases List.mem_cons.mp hc2 with rfl | hc2t
            · have hvv : v1 = v := Except.ok.inj (hv1.symm.trans he2)
              subst hvv
              exact absurd ((keepComp_eq_true_iff beds baths sq_ft v1).mpr conds) hk
            · exact (ih rest hrest).mpr ⟨⟨c2, hc2t, he2⟩, conds⟩

/-- Witness for claim C2 at a concrete target and a single card that
passes the filter. -/
theorem comp_filter_keeps_entry_iff_witness :
    exRow ∈ [exRow] ↔ ((∃ c ∈ [exCard], extractCard c = .ok exRow) ∧
      |exRow.beds - (3 : ℤ)| ≤ 1 ∧ |exRow.baths - ((2 : ℤ) : ℚ)| ≤ 1 ∧
      (8 / 10 : ℚ) * (1000 : ℤ) ≤ exRow.sq_ft ∧
      (exRow.sq_ft : ℚ) ≤ (12 / 10 : ℚ) * (1000 : ℤ) ∧
      exRow.sold_date ≠ "" ∧ strContains exRow.sold_date "2025" = true) :=
  comp_filter_keeps_entry_iff 3 2 1000 [exCard] [exRow]
    (by with_unfolding_all rfl) exRow

/-- Claim C3 (confirmed): calculate_arv returns 250000 on the sold prices
[200000, 250000, 300000], the defined no-estimate value 0 on an empty comp
set, and the arithmetic mean 150000 on [100000, 200000]. -/
theorem calculate_arv_examples :
    calculate_arv [rowP 200000, rowP 250000, rowP 300000] = 250000 ∧
    calculate_arv [] = 0 ∧
    calculate_arv [rowP 100000, rowP 200000] = 150000 :=
  ⟨by with_unfolding_all rfl, rfl, by with_unfolding_all rfl⟩

/-- Claim C4 counterexample: with sold prices [0, 100000, 200000] — the 0
recording a not-found sold price — calculate_arv returns 100000, the
median over all three entries, not 150000, the median over the two
defined sold prices that the claim prescribes. -/
theorem calculate_arv_zero_price_participates :
    calculate_arv [rowP 0, rowP 100000, rowP 200000] = 100000 ∧
    claim_arv_defined_only [rowP 0, rowP 100000, rowP 200000] = 150000 ∧
    calculate_arv [rowP 0, rowP 100000, rowP 200000] ≠
      claim_arv_defined_only [rowP 0, rowP 100000, rowP 200000] :=
  ⟨by with_unfolding_all rfl, by with_unfolding_all rfl, by with_unfolding_all decide⟩

/-- Claim C4 (amended): for a non-empty comp set calculate_arv returns the
median — middle element for odd count, mean of the two middle elements
for even count — of the sold prices of ALL entries sorted ascending,
including entries whose sold price was recorded as 0; for an empty set it
returns 0. -/
theorem calculate_arv_median_of_all_prices :
    calculate_arv [] = 0 ∧
    ∀ (rows : List CompRow) (s : List ℚ), rows ≠ [] →
      s.Perm (rows.map (fun r => (r.sold_price : ℚ))) → s.Sorted (· ≤ ·) →
      calculate_arv rows =
        (if s.length % 2 = 1 then s.getD (s.length / 2) 0
         else (s.getD (s.length / 2 - 1) 0 + s.getD (s.length / 2) 0) / 2) := by
  refine ⟨rfl, ?_⟩
  intro rows s hne hperm hsort
  have hs : s = (rows.map (fun r => (r.sold_price : ℚ))).insertionSort (· ≤ ·) := by
    refine List.eq_of_perm_of_sorted ?_ hsort (List.sorted_insertionSort _ _)
    exact hperm.trans (List.perm_insertionSort _ _).symm
  subst hs
  have hre : rows.isEmpty = false := by
    cases rows with
    | nil => exact absurd rfl hne
    | cons a l => rfl
  simp only [calculate_arv, hre, Bool.false_eq_true, if_false]
  rfl

/-- Witness for claim C4 (amended) at the sold prices [0, 100000, 200000]. -/
theorem calculate_arv_median_of_all_prices_witness :
    calculate_arv [rowP 0, rowP 100000, rowP 200000] =
      (if (List.map (fun r => ((r.sold_price : ℤ) : ℚ))
            [rowP 0, rowP 100000, rowP 200000]).length % 2 = 1 then
        (List.map (fun r => ((r.sold_price : ℤ) : ℚ))
            [rowP 0, rowP 100000, rowP 200000]).getD
          ((List.map (fun r => ((r.sold_price : ℤ) : ℚ))
              [rowP 0, rowP 100000, rowP 200000]).length / 2) 0
       else
        ((List.map (fun r => ((r.sold_price : ℤ) : ℚ))
              [rowP 0, rowP 100000, rowP 200000]).getD
            ((List.map (fun r => ((r.sold_price : ℤ) : ℚ))
                [rowP 0, rowP 100000, rowP 200000]).length / 2 - 1) 0 +
          (List.map (fun r => ((r.sold_price : ℤ) : ℚ))
              [rowP 0, rowP 100000, rowP 200000]).getD
            ((List.map (fun r => ((r.sold_price : ℤ) : ℚ))
                [rowP 0, rowP 100000, rowP 200000]).length / 2) 0) / 2) :=
  calculate_arv_median_of_all_prices.2 [rowP 0, rowP 100000, rowP 200000]
    (List.map (fun r => ((r.sold_price : ℤ) : ℚ)) [rowP 0, rowP 100000, rowP 200000])
    (by simp [rowP]) (List.Perm.refl _) (by with_unfolding_all decide)

/-- Claim C5 (code bug): on page content with no recognizable pattern the
extractor returns the all-defaults record without raising, but on content
containing the fractional bedroom text 3.5 bd the int conversion of the
matched group raises ValueError, contradicting the claim that no
exception propagates when a pattern matches. -/
theorem get_property_details_fractional_bd_raises :
    get_property_details "addr" "word only content" =
      .ok (some { address := "addr", beds := 0, baths := 0, sq_ft := 0, lot_size := 0,
                  year_built := 0, latitude := none, longitude := none }) ∧
    get_property_details "addr" "3.5 bd" = .error "invalid literal for int" :=
  ⟨by with_unfolding_all rfl, by rfl⟩

/-- Claim C6 counterexample: 204 is an HTTP success status, yet the
fetcher returns empty content for it rather than the response body. -/
theorem fetch_drops_body_on_success_204 :
    specHttpSuccess 204 = true ∧ fetch_zillow_page 204 "x" = "" ∧ ("x" : String) ≠ "" := by
  refine ⟨rfl, by rfl, by simp⟩

/-- Claim C6 (amended): the fetcher returns the response body exactly when
the status is exactly 200 (or when the body is itself empty), and empty
fetched content makes the target extractor return the empty record and
the comp search return the empty collection, neither raising. -/
theorem fetch_200_and_empty_downstream (status : ℕ) (body addr : String)
    (lat lon : ℚ) (beds baths sq_ft lot_size year_built : ℤ)
    (soup : String → List Card) :
    (fetch_zillow_page status body = body ↔ (status = 200 ∨ body = "")) ∧
    (fetch_zillow_page status body = "" →
      get_property_details addr (fetch_zillow_page status body) = .ok none ∧
      get_comps lat lon beds baths sq_ft lot_size year_built
        (fetch_zillow_page status body) soup = .ok []) := by
  constructor
  · unfold fetch_zillow_page
    by_cases h : status = 200
    · simp [h]
    · simp only [h, if_false, false_or]
      exact ⟨fun he => he.symm, fun he => he.symm⟩
  · intro he
    rw [he]
    exact ⟨by simp [get_property_details], by simp [get_comps]⟩

/-- Witness for claim C6 (amended) at a failing fetch (status 404). -/
theorem fetch_200_and_empty_downstream_witness :
    get_property_details "a" (fetch_zillow_page 404 "boom") = .ok none ∧
    get_comps 0 0 3 2 1000 5000 1990 (fetch_zillow_page 404 "boom")
      (fun _ => []) = .ok [] :=
  (fetch_200_and_empty_downstream 404 "boom" "a" 0 0 3 2 1000 5000 1990
    (fun _ => [])).2 (by rfl)

/-- Claim C7 counterexample: page content carrying only a latitude value
yields a record with latitude present and longitude absent. -/
theorem coords_one_sided_record :
    get_property_details "a" "\"latitude\": 12.5" =
      .ok (some { address := "a", beds := 0, baths := 0, sq_ft := 0, lot_size := 0,
                  year_built := 0, latitude := some ((25 : ℚ) / 2), longitude := none }) ∧
    (some ((25 : ℚ) / 2)).isSome = true ∧ (none : Option ℚ).isSome = false :=
  ⟨by with_unfolding_all rfl, rfl, rfl⟩

/-- Claim C7 (amended): the two coordinates are extracted independently:
in any successfully returned record, latitude is present exactly when the
latitude pattern matched the page content, and longitude exactly when the
longitude pattern matched — so exactly one of the two may be present. -/
theorem coords_presence_independent (addr html : String) (r : PropRecord)
    (h : get_property_details addr html = .ok (some r)) :
    r.latitude.isSome = (searchLatitude html).isSome ∧
    r.longitude.isSome = (searchLongitude html).isSome := by
  obtain ⟨-, -, -, -, -, hlat, hlon, -⟩ := get_property_details_ok_some h
  constructor
  · cases hsl : searchLatitude html with
    | none =>
      rw [hsl] at hlat
      simp only [parseOptFloat, Except.ok.injEq] at hlat
      rw [← hlat]
      rfl
    | some g =>
      rw [hsl] at hlat
      simp only [parseOptFloat] at hlat
      cases hf : pyFloat g with
      | error e => rw [hf] at hlat; simp [Except.map] at hlat
      | ok q =>
        rw [hf] at hlat
        simp only [Except.map, Except.ok.injEq] at hlat
        rw [← hlat]
        rfl
  · cases hsl : searchLongitude html with
    | none =>
      rw [hsl] at hlon
      simp only [parseOptFloat, Except.ok.injEq] at hlon
      rw [← hlon]
      rfl
    | some g =>
      rw [hsl] at hlon
      simp only [parseOptFloat] at hlon
      cases hf : pyFloat g with
      | error e => rw [hf] at hlon; simp [Except.map] at hlon
      | ok q =>
        rw [hf] at hlon
        simp only [Except.map, Except.ok.injEq] at hlon
        rw [← hlon]
        rfl

/-- Witness for claim C7 (amended) at latitude-only page content. -/
theorem coords_presence_independent_witness :
    (some ((25 : ℚ) / 2)).isSome = (searchLatitude "\"latitude\": 12.5").isSome ∧
    (none : Option ℚ).isSome = (searchLongitude "\"latitude\": 12.5").isSome :=
  coords_presence_independent "a" "\"latitude\": 12.5"
    { address := "a", beds := 0, baths := 0, sq_ft := 0, lot_size := 0,
      year_built := 0, latitude := some ((25 : ℚ) / 2), longitude := none }
    (by with_unfolding_all rfl)

/-- Claim C8 counterexample: a card whose bedroom span reads -1 passes the
similarity filter against an all-zero target and produces a kept comp row
whose bedroom count is negative. -/
theorem comp_negative_beds_kept :
    get_comps_rows 0 0 0 [negBedsCard] = .ok [negBedsRow] ∧ negBedsRow.beds < 0 :=
  ⟨by with_unfolding_all rfl, by decide⟩

/-- Claim C8 (amended): all numeric fields of the target extractor, and
the comp fields extracted by digit-only patterns (square footage and sold
price), are non-negative; the comp bedroom and bathroom counts, parsed by
int and float from arbitrary span text, are not covered (and can in fact
be negative). -/
theorem extractor_numeric_fields_nonneg :
    (∀ addr html r, get_property_details addr html = .ok (some r) →
      0 ≤ r.beds ∧ 0 ≤ r.baths ∧ 0 ≤ r.sq_ft ∧ 0 ≤ r.lot_size ∧ 0 ≤ r.year_built) ∧
    (∀ c v, extractCard c = .ok v → 0 ≤ v.sq_ft ∧ 0 ≤ v.sold_price) := by
  constructor
  · intro addr html r h
    obtain ⟨hbeds, hbaths, hsq, hlot, hyb, -, -, -⟩ := get_property_details_ok_some h
    refine ⟨?_, ?_, ?_, ?_, ?_⟩
    · refine parseIntField_nonneg (fun g hg ch hch => ?_) hbeds
      unfold searchBd at hg
      obtain ⟨l2, hl2⟩ := scanFirst_some hg
      rcases tryNumSuffix_chars hl2 ch hch with hd | rfl
      · exact isDigit_ne_dash hd
      · decide
    · refine parseIntField_nonneg (fun g hg ch hch => ?_) hbaths
      unfold searchBa at hg
      obtain ⟨l2, hl2⟩ := scanFirst_some hg
      rcases tryNumSuffix_chars hl2 ch hch with hd | rfl
      · exact isDigit_ne_dash hd
      · decide
    · refine parseIntFieldComma_nonneg (fun g hg ch hch => ?_) hsq
      unfold searchSqftTarget at hg
      obtain ⟨l2, hl2⟩ := scanFirst_some hg
      rcases trySqftTarget_chars hl2 ch hch with hd | rfl
      · exact isDigit_ne_dash hd
      · decide
    · refine parseIntFieldComma_nonneg (fun g hg ch hch => ?_) hlot
      unfold searchLot at hg
      obtain ⟨l2, hl2⟩ := scanFirst_some hg
      rcases tryLot_chars hl2 ch hch with hd | rfl
      · exact isDigit_ne_dash hd
      · decide
    · refine parseIntField_nonneg (fun g hg ch hch => ?_) hyb
      unfold searchBuilt at hg
      obtain ⟨l2, hl2⟩ := scanFirst_some hg
      exact isDigit_ne_dash (tryBuilt_chars hl2 ch hch)
  · intro c v h
    obtain ⟨-, -, hsq, hsp, -, -⟩ := extractCard_ok h
    constructor
    · refine parseIntFieldComma_nonneg (fun g hg ch hch => ?_) hsq
      unfold searchCompSqft at hg
      obtain ⟨l2, hl2⟩ := scanFirst_some hg
      exact isDigit_ne_dash (tryCompSqft_chars hl2 ch hch)
    · refine parseIntFieldComma_nonneg (fun g hg ch hch => ?_) hsp
      unfold searchSoldPrice at hg
      obtain ⟨l2, hl2⟩ := scanFirst_some hg
      rcases trySoldPrice_chars hl2 ch hch with hd | rfl
      · exact isDigit_ne_dash hd
      · decide

/-- Witness for claim C8 (amended): the target record extracted from the
page content 3 bd has non-negative fields, and the row extracted from the
example card has non-negative square footage and sold price. -/
theorem extractor_numeric_fields_nonneg_witness :
    ((0 : ℤ) ≤ 3 ∧ (0 : ℤ) ≤ 0 ∧ (0 : ℤ) ≤ 0 ∧ (0 : ℤ) ≤ 0 ∧ (0 : ℤ) ≤ 0) ∧
    ((0 : ℤ) ≤ 1100 ∧ (0 : ℤ) ≤ 250000) :=
  ⟨extractor_numeric_fields_nonneg.1 "a" "3 bd"
      { address := "a", beds := 3, baths := 0, sq_ft := 0, lot_size := 0,
        year_built := 0, latitude := none, longitude := none }
      (by with_unfolding_all rfl),
   extractor_numeric_fields_nonneg.2 exCard exRow (by with_unfolding_all rfl)⟩

/-- Claim C9 (confirmed, spec-modelled cache): with an empty cache the
first target lookup fetches; a second lookup with the identical address
within the 3600 second window returns the previously computed result
without fetching; at or after expiry a new fetch is issued. -/
theorem cached_target_lookup_ttl_window (fetchHtml : String → String)
    (addr : String) (t1 t2 : ℕ) :
    (target_lookup_cached fetchHtml addr t1 ⟨[]⟩).2.2 = true ∧
    (t2 < t1 + 3600 →
      (target_lookup_cached fetchHtml addr t2
        (target_lookup_cached fetchHtml addr t1 ⟨[]⟩).2.1).1 =
          (target_lookup_cached fetchHtml addr t1 ⟨[]⟩).1 ∧
      (target_lookup_cached fetchHtml addr t2
        (target_lookup_cached fetchHtml addr t1 ⟨[]⟩).2.1).2.2 = false) ∧
    (t1 + 3600 ≤ t2 →
      (target_lookup_cached fetchHtml addr t2
        (target_lookup_cached fetchHtml addr t1 ⟨[]⟩).2.1).2.2 = true) := by
  refine ⟨rfl, ?_, ?_⟩
  · intro hlt
    simp [target_lookup_cached, cachedCall, cacheFind, List.find?, hlt]
  · intro hge
    have hnlt : ¬ (t2 < t1 + 3600) := by omega
    simp [target_lookup_cached, cachedCall, cacheFind, List.find?, hnlt]

/-- Witness for claim C9: concrete times 0 and 10 (inside the window) and
0 and 3600 (at expiry). -/
theorem cached_target_lookup_ttl_window_witness :
    ((target_lookup_cached (fun _ => "") "a" 10
        (target_lookup_cached (fun _ => "") "a" 0 ⟨[]⟩).2.1).2.2 = false) ∧
    ((target_lookup_cached (fun _ => "") "a" 3600
        (target_lookup_cached (fun _ => "") "a" 0 ⟨[]⟩).2.1).2.2 = true) :=
  ⟨((cached_target_lookup_ttl_window (fun _ => "") "a" 0 10).2.1 (by decide)).2,
   (cached_target_lookup_ttl_window (fun _ => "") "a" 0 3600).2.2 (by decide)⟩

/-- Claim C10 (confirmed): the main block treats a zero coordinate as a
geocoding failure — if the geocoder returns latitude 0.0 or longitude 0.0
the pipeline aborts, and it proceeds exactly when both coordinates are
present and non-zero (truthy). -/
theorem zero_coordinate_aborts_pipeline (lat lon : Option ℚ) :
    ((lat = some 0 ∨ lon = some 0) → main_proceeds lat lon = false) ∧
    (main_proceeds lat lon = true ↔
      (∃ a, lat = some a ∧ a ≠ 0) ∧ (∃ b, lon = some b ∧ b ≠ 0)) := by
  constructor
  · rintro (rfl | rfl) <;>
      simp [main_proceeds, pyTruthyFloat]
  · cases lat <;> cases lon <;>
      simp [main_proceeds, pyTruthyFloat]

/-- Witness for claim C10: latitude 0.0 aborts even alongside a good
longitude. -/
theorem zero_coordinate_aborts_pipeline_witness :
    main_proceeds (some 0) (some 1) = false :=
  (zero_coordinate_aborts_pipeline (some 0) (some 1)).1 (Or.inl rfl)

end ArvCalc
